import Mathlib

/-!
Verification of the MemCP memory lifecycle engine.

This file gives a shallow embedding, in Lean, of the core operations of the
MemCP repository (memory storage and search across a relational store and a
Qdrant vector index, the consolidation scheduler, and the background
consolidation worker) and proves or refutes the frozen specification claims
about them.  Each definition carries a doc comment pointing at the source
lines it embeds.  External collaborators (the Qdrant client, the embedding
service, the LLM synthesis chain, the Celery broker and the commit machinery
of PostgreSQL) are modelled by their call contracts: their outcomes enter the
definitions as explicit parameters (similarity scorers, success flags), never
as hidden assumptions.  Definitions come first, then the theorems.
-/

namespace MemCP

/-- Identifier of a user.  The source uses uuid values; only equality of
identifiers matters to the embedded operations, so they are abstracted to
natural numbers. -/
abbrev UserId := Nat

/-- Identifier of a `Memory` row and of its mirrored Qdrant point (a uuid in
the source, generated fresh by the writer). -/
abbrev MemId := Nat

/-- Identifier of a `UserMessage` row (an integer primary key in the source,
`db/models/user_message.py`). -/
abbrev MsgId := Nat

/-- Python `str.strip()`: remove leading and trailing whitespace. -/
def pyStrip (s : String) : String :=
  String.mk (((s.toList.dropWhile Char.isWhitespace).reverse.dropWhile Char.isWhitespace).reverse)

/-- Exception taxonomy of `src/exceptions`, restricted to the constructors the
embedded operations actually raise. -/
inductive Err
  | userContext (msg : String)
  | qdrantService (msg : String)
  | memorySearch (msg : String)
  | databaseOperation (msg : String)
  | recordNotFound
  | memoryStore (msg : String)
  | attrMissing (missingAttr : String)
  | synthesis (msg : String)
deriving DecidableEq, Repr

/-- Default of the env var `MEMORY_SCORE_THRESHOLD`, `0.40`
(`memory_manager.py` line 37, `vector_store.py` lines 35 and 229). -/
def defaultScoreThreshold : ℚ := mkRat 40 100

/-- Default of the env var `MEMORY_UPPER_SCORE_THRESHOLD`, `0.98`
(`memory_manager.py` line 38, `vector_store.py` lines 36 and 230). -/
def defaultUpperScoreThreshold : ℚ := mkRat 98 100

/-- A point of the Qdrant collection: the generated id together with the
payload written by `store_memory` (`vector_store.py` lines 94-99,
`memory_manager.py` lines 110-115).  The embedding vector itself is
abstracted away; similarity to a query enters through a scorer argument. -/
structure VPoint where
  id : MemId
  content : String
  tags : List String
  timestamp : Nat
  userId : UserId
deriving DecidableEq, Repr

/-- One search hit as returned by the Qdrant client and re-packaged by the
search methods (`memory_manager.py` lines 198-213): the payload fields of the
stored point plus its similarity score for the current query. -/
structure Hit where
  id : MemId
  content : String
  tags : List String
  score : ℚ
  timestamp : Nat
  userId : UserId
deriving DecidableEq, Repr

/-- Package a stored point with its score, as the result loop does. -/
def VPoint.toHit (p : VPoint) (score : ℚ) : Hit :=
  ⟨p.id, p.content, p.tags, score, p.timestamp, p.userId⟩

/-- Qdrant result ordering: descending similarity score. -/
def scoreDesc (a b : Hit) : Prop := b.score ≤ a.score

instance : DecidableRel scoreDesc := fun a b => Rat.instDecidableLe b.score a.score

/-- Model of the external Qdrant `client.search` call
(`memory_manager.py` lines 181-188, `vector_store.py` lines 138-145 and
384-391), by its service contract: return the points that pass the
`user_id` payload filter and whose similarity score is at least
`score_threshold`, ordered by descending score, truncated to `limit`.
`sim` is the black-box cosine scorer applied to the query embedding. -/
def clientSearch (index : List VPoint) (sim : VPoint → ℚ) (uid : UserId)
    (scoreThreshold : ℚ) (lim : Nat) : List Hit :=
  ((((index.filter
      (fun p => p.userId == uid && decide (scoreThreshold ≤ sim p))).map
        (fun p => p.toHit (sim p))).insertionSort scoreDesc).take lim)

/-- The two score thresholds carried by `MemoryManager`, `VectorStore` and
`SyncVectorStore` instances. -/
structure ThresholdConfig where
  scoreThreshold : ℚ
  upperScoreThreshold : ℚ
deriving DecidableEq, Repr

/-- The configuration obtained from the env-var defaults. -/
def defaultConfig : ThresholdConfig := ⟨defaultScoreThreshold, defaultUpperScoreThreshold⟩

/-- Embeds `MemoryManager.search_related` (`memory_manager.py` lines 155-213);
`VectorStore.search_memories` (`vector_store.py` lines 119-170) and
`SyncVectorStore.search_memories` (lines 365-416) run the identical logic
minus the user-context check.  Requires a resolved user id (else
`UserContextError`), queries Qdrant with the lower `score_threshold` and
`limit=25`, then the result loop skips every hit whose score is strictly
greater than `upper_score_threshold`. -/
def searchRelated (cfg : ThresholdConfig) (index : List VPoint) (sim : VPoint → ℚ)
    (userId? : Option UserId) : Except Err (List Hit) :=
  match userId? with
  | none => .error (.userContext "User context is required for memory search")
  | some uid =>
    let raw := clientSearch index sim uid cfg.scoreThreshold 25
    .ok (raw.filter (fun h => !(decide (cfg.upperScoreThreshold < h.score))))

/-- A `UserMessage` row (`db/models/user_message.py`): append-only message log
entry with the `is_processed` consolidation flag (default false). -/
structure UserMessage where
  id : MsgId
  userId : UserId
  messageContent : String
  createdAt : Nat
  isProcessed : Bool
deriving DecidableEq, Repr

/-- A `ProcessedUserProfile` row (`db/models/processed_user_profile.py`):
one per owner (`user_id` is unique), holding the synthesized metadata JSON
and summary text. -/
structure ProcessedUserProfile where
  userId : UserId
  metadataJson : String
  summaryText : String
deriving DecidableEq, Repr

/-- A `Memory` row (`db/models/memory.py`): id, content, tags, owner. -/
structure Memory where
  id : MemId
  content : String
  tags : List String
  userId : UserId
deriving DecidableEq, Repr

/-- Chronological message order (`order_by(UserMessage.created_at.asc())`). -/
def createdAsc (a b : UserMessage) : Prop := a.createdAt ≤ b.createdAt

instance : DecidableRel createdAsc := fun a b => Nat.decLe a.createdAt b.createdAt

/-- The unprocessed-messages query of `_should_trigger_profile_update`
(`profile_processor.py` lines 41-46, 59-64, 80-85): all messages of the owner
with `is_processed == False`, oldest first. -/
def unprocessedFor (msgs : List UserMessage) (uid : UserId) : List UserMessage :=
  (msgs.filter (fun m => m.userId == uid && !m.isProcessed)).insertionSort createdAsc

/-- The `profile_is_empty` test (`profile_processor.py` lines 50-54).  Python
`not s` on a string is `s == ""`; `"\x7b\x7d"` is the two-character string of
an opening and a closing curly brace, the empty JSON object. -/
def profileIsEmpty (metadataJsonStr summaryText : String) : Bool :=
  (metadataJsonStr == "" || pyStrip metadataJsonStr == "" || pyStrip metadataJsonStr == "\x7b\x7d") &&
  (summaryText == "" || pyStrip summaryText == "")

/-- Default of the env var `LLM_PROCESS_BATCH_SIZE` (`profile_processor.py`
line 19). -/
def LLM_PROCESS_BATCH_SIZE : Nat := 3

/-- Embeds `ProfileProcessor._should_trigger_profile_update`
(`profile_processor.py` lines 24-89).  Returns whether the background
consolidation task fires together with the fetched unprocessed batch:
immediately when the owner has no profile row, immediately when the existing
profile is effectively empty, otherwise only when the unprocessed message
count has reached the batch size. -/
def shouldTriggerProfileUpdate (msgs : List UserMessage) (uid : UserId)
    (existingProfile : Option ProcessedUserProfile)
    (existingMetadataJsonStr existingSummaryText : String) (batchSize : Nat) :
    Bool × List UserMessage :=
  match existingProfile with
  | none => (true, unprocessedFor msgs uid)
  | some _ =>
    if profileIsEmpty existingMetadataJsonStr existingSummaryText then
      (true, unprocessedFor msgs uid)
    else if batchSize ≤ (msgs.filter (fun m => m.userId == uid && !m.isProcessed)).length then
      (true, unprocessedFor msgs uid)
    else
      (false, [])

/-- Combined state of the two stores as seen by `MemoryManager`: the Qdrant
collection and the relational `memories` table. -/
structure DualState where
  vindex : List VPoint
  memories : List Memory
deriving DecidableEq, Repr

/-- Outcomes of the external calls made by `MemoryManager.store`: the OpenAI
embedding call, the Qdrant upsert and the relational insert-and-commit. -/
structure StoreOutcome where
  embedOk : Bool
  upsertOk : Bool
  relationalOk : Bool
deriving DecidableEq, Repr

/-- Embeds `MemoryManager.store` (`memory_manager.py` lines 92-152): resolve
the user context (else `UserContextError`), generate a fresh id, embed and
upsert the point into Qdrant (any failure there raises `QdrantServiceError`
before the relational store is touched), then insert and commit the
relational row.  A relational failure raises `DatabaseOperationError`; the
source has no compensation step, so the previously upserted vector point
stays in the index. -/
def MemoryManager.store (st : DualState) (o : StoreOutcome) (userId? : Option UserId)
    (newId : MemId) (content : String) (tags : List String) (now : Nat) :
    Except Err String × DualState :=
  match userId? with
  | none => (.error (.userContext "User context is required for memory storage"), st)
  | some uid =>
    if !(o.embedOk && o.upsertOk) then
      (.error (.qdrantService "Failed to store memory in vector database"), st)
    else
      let st1 : DualState := { st with vindex := st.vindex ++ [⟨newId, content, tags, now, uid⟩] }
      if !o.relationalOk then
        (.error (.databaseOperation "Failed to store memory in relational database"), st1)
      else
        (.ok ("Memory stored with ID: " ++ toString newId ++ " for user: " ++ toString uid),
          { st1 with memories := st1.memories ++ [⟨newId, content, tags, uid⟩] })

/-- Embeds `get_memory_by_id` (`crud_memory.py` lines 10-13): first row whose
primary key matches. -/
def getMemoryById (memories : List Memory) (mid : MemId) : Option Memory :=
  (memories.filter (fun m => m.id == mid)).head?

/-- Embeds `delete_memory` (`crud_memory.py` lines 105-136): a missing row
raises `RecordNotFoundError`; an owner mismatch raises
`DatabaseOperationError("User can only delete their own memories")`;
otherwise the row is deleted and flushed (`flushOk` is the outcome of the
delete-and-flush call, whose failure raises `DatabaseOperationError`). -/
def deleteMemory (memories : List Memory) (mid : MemId) (uid : UserId) (flushOk : Bool) :
    Except Err (List Memory) :=
  match getMemoryById memories mid with
  | none => .error .recordNotFound
  | some m =>
    if !(m.userId == uid) then
      .error (.databaseOperation "User can only delete their own memories")
    else if flushOk then
      .ok (memories.filter (fun r => !(r.id == mid)))
    else
      .error (.databaseOperation "Failed to delete memory")

/-- Modelled from the spec: `MemoryManager.delete_memory` is invoked by the
MCP tool `remove_memory` (`mcp.py` lines 191-226) and by the REST delete
endpoint (`routers/memory.py` lines 292-312), but the `MemoryManager` class
of `src/memory_manager.py` does not define it — the method body is missing
from the snapshot.  Modelled from spec section 4.1: relational delete first,
with ownership verified by the relational query (embedded above from
`crud_memory.py`, the cited authority for the check); vector delete
best-effort afterwards, independently re-verifying ownership via the point
payload before physical removal. -/
def MemoryManager.deleteMemory (st : DualState) (mid : MemId) (uid : UserId)
    (flushOk : Bool) : Except Err String × DualState :=
  match MemCP.deleteMemory st.memories mid uid flushOk with
  | .error e => (.error e, st)
  | .ok rel =>
    (.ok ("Memory deleted: " ++ toString mid),
      { vindex := st.vindex.filter (fun p => !(p.id == mid && p.userId == uid)),
        memories := rel })

/-- Full relational-plus-vector state handled by the background worker. -/
structure WorkerState where
  profiles : List ProcessedUserProfile
  memories : List Memory
  messages : List UserMessage
  vindex : List VPoint
deriving DecidableEq, Repr

/-- The result shape declared for the synthesis chain: `LLMAnalysisResult`
(`synthesize_user_profile.py` lines 39-41) has exactly the two fields
`user_profile_summary` and `user_profile_metadata`. -/
structure LLMAnalysisResult where
  user_profile_summary : String
  user_profile_metadata : String
deriving DecidableEq, Repr

/-- Outcomes of the external LLM calls made by `get_llm_profile_synthesis`
(`synthesize_user_profile.py` lines 46-97): whether the primary chain invoke
succeeds (it already carries its own bounded retries, `max_retries=2`),
whether the module-level fallback already selected OpenAI as the primary
(lines 12-34), whether an OpenAI key is configured for the backup chain, and
whether the backup invoke succeeds.  `response` is the structured output on
success. -/
structure SynthOutcome where
  primaryOk : Bool
  usingOpenai : Bool
  openaiKeyPresent : Bool
  backupOk : Bool
  response : LLMAnalysisResult
deriving DecidableEq, Repr

/-- Embeds `get_llm_profile_synthesis` (`synthesize_user_profile.py` lines
46-97): invoke the primary chain; on failure re-raise when already on OpenAI
or no OpenAI key is configured, otherwise invoke the OpenAI backup chain and
re-raise its failure. -/
def getLLMProfileSynthesis (o : SynthOutcome) : Except Err LLMAnalysisResult :=
  if o.primaryOk then .ok o.response
  else if o.usingOpenai || !o.openaiKeyPresent then
    .error (.synthesis "Profile synthesis failed")
  else if o.backupOk then .ok o.response
  else .error (.synthesis "Both primary and backup models failed")

/-- Embeds the response-parsing block of `update_profile_background`
(`tasks.py` lines 215-242).  Line 222 reads
`llm_response.user_profile_memories`, but `LLMAnalysisResult` declares no
such field, so this attribute access raises `AttributeError` for every
response; the handler at lines 235-242 converts it into
`UserContextError("LLM response format is invalid")`.  The parse therefore
fails on every input, and the JSON validation with its empty-object fallback
(lines 224-233) is unreachable. -/
def parseLLMResponse ( _r : LLMAnalysisResult) : Except Err (String × String × List String) :=
  .error (.userContext "LLM response format is invalid")

/-- The call `sync_vector_store.search_similar_memories(...)` at `tasks.py`
lines 104-107.  `SyncVectorStore` (`vector_store.py` lines 210-424) defines
`store_memory`, `store_memories_batch`, `search_memories` and `close`, but no
method named `search_similar_memories`, so in Python this attribute access
raises `AttributeError` for every input. -/
def searchSimilarMemories ( _index : List VPoint) ( _sim : VPoint → ℚ)
    ( _content : String) ( _uid : UserId) : Except Err (List Hit) :=
  .error (.attrMissing "search_similar_memories")

/-- Embeds `_store_memory_sync` (`tasks.py` lines 20-65): build a `Memory`
row tagged for the session flush (committed later by the caller); a failing
insert raises `MemoryStoreError`.  `insertOk` is the flush outcome. -/
def storeMemorySync (uid : UserId) (content : String) (tags : List String)
    (newId : MemId) (insertOk : Bool) : Except Err Memory :=
  if insertOk then .ok ⟨newId, content, tags, uid⟩
  else .error (.memoryStore "Failed to store memory in PostgreSQL")

/-- Outcomes of the external calls inside `_store_memories_batch`: the
per-candidate PostgreSQL flush, the single batch commit (`tasks.py` line
143), and the Qdrant batch upsert. -/
structure BatchOutcome where
  insertOk : String → Bool
  commitOk : Bool
  qdrantBatchOk : Bool

/-- The candidate loop of `_store_memories_batch` (`tasks.py` lines 96-136):
skip blank candidates; run the duplicate check, which always raises
`AttributeError` (see `searchSimilarMemories`) — the blanket handler at lines
118-120 logs a warning and proceeds to store; store via `_store_memory_sync`
(a fresh uuid is drawn per attempt), collecting the pending rows and the
point data destined for Qdrant. -/
def batchLoop (vindexD : List VPoint) (sim : VPoint → ℚ) (uid : UserId)
    (o : BatchOutcome) (now : Nat) :
    List String → MemId → List MemId × List Memory × List VPoint
  | [], _ => ([], [], [])
  | c :: rest, nid =>
    let cleaned := pyStrip c
    if cleaned == "" then batchLoop vindexD sim uid o now rest nid
    else
      let dedupSkip :=
        match searchSimilarMemories vindexD sim cleaned uid with
        | .ok sims => !sims.isEmpty
        | .error _ => false
      if dedupSkip then batchLoop vindexD sim uid o now rest nid
      else
        match storeMemorySync uid cleaned ["ai_extracted"] nid (o.insertOk cleaned) with
        | .ok row =>
          let (ids, rows, points) := batchLoop vindexD sim uid o now rest (nid + 1)
          (nid :: ids, row :: rows, ⟨nid, cleaned, ["ai_extracted"], now, uid⟩ :: points)
        | .error _ => batchLoop vindexD sim uid o now rest (nid + 1)

/-- Embeds `_store_memories_batch` (`tasks.py` lines 67-163): run the
candidate loop, commit the pending rows in one PostgreSQL commit (a commit
failure rolls the rows back and returns the empty id list without raising),
then mirror the committed rows into Qdrant in one batch upsert whose failure
is logged but does not fail the task. -/
def storeMemoriesBatch (st : WorkerState) (uid : UserId) (memories : List String)
    (sim : VPoint → ℚ) (o : BatchOutcome) (nextId : MemId) (now : Nat) :
    List MemId × WorkerState :=
  if memories.isEmpty then ([], st)
  else
    let (ids, rows, points) := batchLoop st.vindex sim uid o now memories nextId
    if !o.commitOk then ([], st)
    else
      let st1 := { st with memories := st.memories ++ rows }
      if points.isEmpty then (ids, st1)
      else if o.qdrantBatchOk then (ids, { st1 with vindex := st1.vindex ++ points })
      else (ids, st1)

/-- The profile find-or-create of `update_profile_background` (`tasks.py`
lines 248-263): update the unique row of the owner, or insert a new one. -/
def upsertProfile (profiles : List ProcessedUserProfile) (uid : UserId)
    (newSummary newMetadataJson : String) : List ProcessedUserProfile :=
  if profiles.any (fun p => p.userId == uid) then
    profiles.map (fun p => if p.userId == uid then ⟨uid, newMetadataJson, newSummary⟩ else p)
  else
    profiles ++ [⟨uid, newMetadataJson, newSummary⟩]

/-- The bulk update of `update_profile_background` (`tasks.py` lines
279-284): set `is_processed = true` on every row whose id is in the list
(no owner filter in the source). -/
def markProcessed (messages : List UserMessage) (ids : List MsgId) : List UserMessage :=
  messages.map (fun m => if ids.contains m.id then { m with isProcessed := true } else m)

/-- Outcomes of the commits issued by the PERSIST phase: the profile commit
(`tasks.py` line 266), the batch outcomes inside `_store_memories_batch`,
and the processed-flags commit (line 286). -/
structure PersistOutcome where
  profileCommitOk : Bool
  batch : BatchOutcome
  markCommitOk : Bool

/-- Embeds the PERSIST phase of `update_profile_background` (`tasks.py` lines
244-297), parameterized by the already-parsed synthesis results.  The phase
issues three separate commits: the profile upsert commits at line 266 (a
failure rolls it back and raises `UserContextError`), the surviving memories
commit inside `_store_memories_batch` at line 143 (a failure there is
swallowed), and the `is_processed` flags commit at line 286 (a failure rolls
back only the flags and raises `UserContextError`, leaving the two earlier
commits durable).  In the shipped code this phase is unreachable, because
`parseLLMResponse` fails on every response. -/
def updateProfilePersist (st : WorkerState) (uid : UserId)
    (newSummary newMetadataJson : String) (memoriesToStore : List String)
    (msgIdsToMark : List MsgId) (sim : VPoint → ℚ) (o : PersistOutcome)
    (nextId : MemId) (now : Nat) : Except Err Unit × WorkerState :=
  if !o.profileCommitOk then
    (.error (.userContext "Failed to save user profile to database"), st)
  else
    let st1 := { st with profiles := upsertProfile st.profiles uid newSummary newMetadataJson }
    let st2 :=
      if memoriesToStore.isEmpty then st1
      else (storeMemoriesBatch st1 uid memoriesToStore sim o.batch nextId now).2
    if msgIdsToMark.isEmpty then (.ok (), st2)
    else if o.markCommitOk then
      (.ok (), { st2 with messages := markProcessed st2.messages msgIdsToMark })
    else
      (.error (.userContext "Failed to save user profile to database"), st2)

/-- The per-message payload handed to the Celery task
(`profile_processor.py` lines 133-140): id, content, creation timestamp. -/
structure MsgPayload where
  id : MsgId
  messageContent : String
  createdAt : Nat
deriving DecidableEq, Repr

/-- The message ids collected for marking (`tasks.py` lines 194-201): Python
`if message_id:` keeps only truthy ids, dropping a hypothetical id 0. -/
def messageIdsToMark (payload : List MsgPayload) : List MsgId :=
  (payload.filter (fun m => !(m.id == 0))).map (fun m => m.id)

/-- Embeds the Celery task `update_profile_background` (`tasks.py` lines
165-331): build the chronological message string, call the synthesis
service, parse the response, then run the PERSIST phase.  A synthesis
failure propagates out of the task before any database access; a parse
failure does the same (both reach the blanket handler at lines 318-331,
which logs and re-raises). -/
def updateProfileBackground (st : WorkerState) (uid : UserId)
    (unprocessedMessages : List MsgPayload)
    ( _existingMetadataJsonStr _existingSummaryText : String)
    (so : SynthOutcome) (sim : VPoint → ℚ) (o : PersistOutcome)
    (nextId : MemId) (now : Nat) : Except Err Unit × WorkerState :=
  match getLLMProfileSynthesis so with
  | .error e => (.error e, st)
  | .ok r =>
    match parseLLMResponse r with
    | .error e => (.error e, st)
    | .ok (newSummary, newMetadataJson, memoriesToStore) =>
      updateProfilePersist st uid newSummary newMetadataJson memoriesToStore
        (messageIdsToMark unprocessedMessages) sim o nextId now

/-- A Celery task enqueued by `record_message_and_get_profile`
(`profile_processor.py` lines 144-156), identified by its deterministic task
id: the owner and the unprocessed-message count at trigger time (the source
formats them into the string `profile_update_<user>_<count>`). -/
structure TaskEntry where
  userId : UserId
  msgCount : Nat
deriving DecidableEq, Repr

/-- State of the scheduler model: the relational tables consulted by the
trigger, the Celery queue, and the log of executed runs. -/
structure SchedState where
  messages : List UserMessage
  profiles : List ProcessedUserProfile
  queue : List TaskEntry
  executed : List TaskEntry
deriving DecidableEq, Repr

/-- Model of the external Celery `apply_async` call with a deterministic task
id.  The broker is external to the repository; this model grants it the
strongest duplicate suppression compatible with the source comment at
`profile_processor.py` line 144: a task whose id exactly equals one already
pending or executed is dropped, any other is appended.  (Vanilla Celery
never deduplicates by task id; the refuted claim fails even under this
charitable model.) -/
def applyAsync (st : SchedState) (t : TaskEntry) : SchedState :=
  if st.queue.contains t || st.executed.contains t then st
  else { st with queue := st.queue ++ [t] }

/-- Embeds `ProfileProcessor.record_message_and_get_profile`
(`profile_processor.py` lines 91-160): append the inbound message, look up
the existing profile of the owner, evaluate the trigger condition, and when
it fires enqueue the consolidation task under the deterministic id
`(owner, length of the fetched unprocessed batch)`. -/
def recordMessageAndGetProfile (st : SchedState) (uid : UserId) (msgId : MsgId)
    (content : String) (now : Nat) : SchedState :=
  let msgs := st.messages ++ [⟨msgId, uid, content, now, false⟩]
  let prof := (st.profiles.filter (fun p => p.userId == uid)).head?
  let meta := match prof with | some p => p.metadataJson | none => ""
  let summary := match prof with | some p => p.summaryText | none => ""
  let tb := shouldTriggerProfileUpdate msgs uid prof meta summary LLM_PROCESS_BATCH_SIZE
  let st1 := { st with messages := msgs }
  if tb.1 then applyAsync st1 ⟨uid, tb.2.length⟩ else st1

/-- One background worker step: the broker delivers the head task and a
worker executes it (`celery_app.py` sets `worker_prefetch_multiplier=1`).
Execution is recorded in the log; the run-count claims do not depend on the
task body. -/
def workerStep (st : SchedState) : SchedState :=
  match st.queue with
  | [] => st
  | t :: rest => { st with queue := rest, executed := st.executed ++ [t] }

/-- Sanity check: the `mkRat` threshold constants are exactly the decimal
literals of the source. -/
theorem defaultThresholds_eq_literals :
    defaultScoreThreshold = 0.40 ∧ defaultUpperScoreThreshold = 0.98 := by
  constructor <;> norm_num [defaultScoreThreshold, defaultUpperScoreThreshold, mkRat, Rat.normalize]

/-- Every hit produced by the modelled Qdrant call comes from an indexed
point of the filtered owner, carrying that point and its score. -/
theorem mem_clientSearch_exists (index : List VPoint) (sim : VPoint → ℚ)
    (uid : UserId) (thr : ℚ) (lim : Nat) (h : Hit)
    (hmem : h ∈ clientSearch index sim uid thr lim) :
    ∃ p, p ∈ index ∧ p.userId = uid ∧ thr ≤ sim p ∧ h = p.toHit (sim p) := by
  unfold clientSearch at hmem
  have h1 := List.mem_of_mem_take hmem
  have h2 := (List.perm_insertionSort scoreDesc _).mem_iff.mp h1
  rcases List.mem_map.mp h2 with ⟨p, hp, hph⟩
  rcases List.mem_filter.mp hp with ⟨hpin, hcond⟩
  simp only [Bool.and_eq_true, decide_eq_true_eq, beq_iff_eq] at hcond
  exact ⟨p, hpin, hcond.1, hcond.2, hph.symm⟩

/-- Every hit produced by the modelled Qdrant call scores at least the
threshold passed to it. -/
theorem clientSearch_score_lower (index : List VPoint) (sim : VPoint → ℚ)
    (uid : UserId) (thr : ℚ) (lim : Nat) (h : Hit)
    (hmem : h ∈ clientSearch index sim uid thr lim) : thr ≤ h.score := by
  rcases mem_clientSearch_exists index sim uid thr lim h hmem with ⟨p, _, _, hthr, hh⟩
  rw [hh]
  exact hthr

/-- The modelled Qdrant call returns at most `lim` hits. -/
theorem clientSearch_length_le (index : List VPoint) (sim : VPoint → ℚ)
    (uid : UserId) (thr : ℚ) (lim : Nat) :
    (clientSearch index sim uid thr lim).length ≤ lim := by
  unfold clientSearch
  exact List.length_take_le _ _

/-- C8: with the default configuration (lower threshold 0.40, upper threshold
0.98), every hit returned by the related-memory search has a score in
`[0.40, 0.98]`: a hit scoring strictly above the upper threshold is excluded
by the result loop, and no returned hit scores below the lower threshold. -/
theorem searchRelated_scores_within_window (index : List VPoint) (sim : VPoint → ℚ)
    (uid : UserId) (hits : List Hit) (h : Hit)
    (hrun : searchRelated defaultConfig index sim (some uid) = .ok hits)
    (hmem : h ∈ hits) :
    defaultScoreThreshold ≤ h.score ∧ h.score ≤ defaultUpperScoreThreshold := by
  unfold searchRelated at hrun
  have hhits : hits = (clientSearch index sim uid defaultConfig.scoreThreshold 25).filter
      (fun h => !(decide (defaultConfig.upperScoreThreshold < h.score))) := by
    cases hrun; rfl
  subst hhits
  rcases List.mem_filter.mp hmem with ⟨hraw, hupper⟩
  constructor
  · exact clientSearch_score_lower index sim uid _ 25 h hraw
  · have : decide (defaultConfig.upperScoreThreshold < h.score) = false := by
      cases hdec : decide (defaultConfig.upperScoreThreshold < h.score)
      · rfl
      · rw [hdec] at hupper; exact absurd hupper (by decide)
    exact le_of_not_lt (of_decide_eq_false this)

/-- Concrete instantiation of the C8 theorem: a one-point index whose point
scores 1/2 for the query yields exactly that hit, and the theorem applies. -/
theorem searchRelated_scores_within_window_witness :
    searchRelated defaultConfig [⟨1, "c", [], 0, 5⟩]
        (fun _ => mkRat 1 2) (some 5) =
      .ok [⟨1, "c", [], mkRat 1 2, 0, 5⟩] ∧
    defaultScoreThreshold ≤ (mkRat 1 2) ∧ (mkRat 1 2) ≤ defaultUpperScoreThreshold := by
  have hrun : searchRelated defaultConfig [⟨1, "c", [], 0, 5⟩]
      (fun _ => mkRat 1 2) (some 5) = .ok [⟨1, "c", [], mkRat 1 2, 0, 5⟩] := by rfl
  refine ⟨hrun, ?_⟩
  exact searchRelated_scores_within_window [⟨1, "c", [], 0, 5⟩]
    (fun _ => mkRat 1 2) 5 [⟨1, "c", [], mkRat 1 2, 0, 5⟩] ⟨1, "c", [], mkRat 1 2, 0, 5⟩
    hrun (by decide)

/-- C10: a single related-memory search returns at most 25 hits for any
query, owner, threshold configuration and index, because the Qdrant query is
issued with a fixed `limit=25` and the upper-threshold loop only removes
hits. -/
theorem searchRelated_returns_at_most_25 (cfg : ThresholdConfig)
    (index : List VPoint) (sim : VPoint → ℚ) (uid : UserId) :
    ∃ hits, searchRelated cfg index sim (some uid) = .ok hits ∧ hits.length ≤ 25 := by
  refine ⟨_, rfl, ?_⟩
  calc ((clientSearch index sim uid cfg.scoreThreshold 25).filter
          (fun h => !(decide (cfg.upperScoreThreshold < h.score)))).length
      ≤ (clientSearch index sim uid cfg.scoreThreshold 25).length :=
        List.length_filter_le _ _
    _ ≤ 25 := clientSearch_length_le index sim uid cfg.scoreThreshold 25

/-- C5 counterexample: an owner with an existing profile row whose metadata
is the empty JSON object and whose summary is blank, holding a single
unprocessed message, does trigger a run, although a profile exists and the
unprocessed count 1 is below the batch size 3 — refuting the claimed
"if and only if (no existing profile, or count at least batchSize)". -/
theorem shouldTrigger_emptyProfile_counterexample :
    (shouldTriggerProfileUpdate [⟨1, 0, "hello", 0, false⟩] 0
        (some ⟨0, "\x7b\x7d", ""⟩) "\x7b\x7d" "" 3).1 = true ∧
    ¬((some (⟨0, "\x7b\x7d", ""⟩ : ProcessedUserProfile) = none) ∨
      3 ≤ (([⟨1, 0, "hello", 0, false⟩] : List UserMessage).filter
            (fun m => m.userId == 0 && !m.isProcessed)).length) := by
  decide

/-- C5 (amended): after each inbound message the consolidation run is
triggered if and only if the owner has no existing profile, or the existing
profile is effectively empty (metadata absent, blank or the empty JSON
object, and summary absent or blank), or the count of currently unprocessed
messages is at least the batch size (default 3); in all other cases the
message simply accumulates.  Cold start with one message, and the
2-versus-3 behaviour for a non-empty profile, follow directly. -/
theorem shouldTrigger_iff_trigger_conditions (msgs : List UserMessage) (uid : UserId)
    (prof : Option ProcessedUserProfile) (meta summary : String) (batchSize : Nat) :
    (shouldTriggerProfileUpdate msgs uid prof meta summary batchSize).1 = true ↔
      (prof = none ∨ profileIsEmpty meta summary = true ∨
        batchSize ≤ (msgs.filter (fun m => m.userId == uid && !m.isProcessed)).length) := by
  unfold shouldTriggerProfileUpdate
  cases prof with
  | none => simp
  | some p =>
    by_cases hempty : profileIsEmpty meta summary = true
    · simp [hempty]
    · by_cases hcount :
        batchSize ≤ (msgs.filter (fun m => m.userId == uid && !m.isProcessed)).length
      · simp [hempty, hcount]
      · simp [hempty, hcount]

/-- C4 counterexample: starting from empty stores, when the relational write
fails after the vector write succeeded, the raised error propagates and the
vector entry is NOT deleted — the index afterwards references id 7 while the
relational store holds no row 7, refuting the claimed compensation. -/
theorem store_relational_failure_keeps_vector_entry_counterexample :
    (MemoryManager.store ⟨[], []⟩ ⟨true, true, false⟩ (some 5) 7 "fact" [] 0).1 =
      .error (.databaseOperation "Failed to store memory in relational database") ∧
    ((MemoryManager.store ⟨[], []⟩ ⟨true, true, false⟩ (some 5) 7 "fact" [] 0).2.vindex.map
        VPoint.id).contains 7 = true ∧
    ((MemoryManager.store ⟨[], []⟩ ⟨true, true, false⟩ (some 5) 7 "fact" [] 0).2.memories.map
        Memory.id).contains 7 = false :=
  ⟨rfl, by decide, by decide⟩

/-- C4 (amended): `MemoryManager.store` generates a new id, writes the vector
representation first and then the relational row; on full success both stores
hold the new record.  If the relational write fails after the vector write
succeeded, a `DatabaseOperationError` propagates and the vector entry is not
compensated: the point remains in the index while the relational store is
unchanged, a repairable inconsistency left to later cleanup. -/
theorem store_vector_first_without_compensation (st : DualState) (uid : UserId)
    (newId : MemId) (content : String) (tags : List String) (now : Nat) :
    MemoryManager.store st ⟨true, true, true⟩ (some uid) newId content tags now =
      (.ok ("Memory stored with ID: " ++ toString newId ++ " for user: " ++ toString uid),
        ⟨st.vindex ++ [⟨newId, content, tags, now, uid⟩],
         st.memories ++ [⟨newId, content, tags, uid⟩]⟩) ∧
    MemoryManager.store st ⟨true, true, false⟩ (some uid) newId content tags now =
      (.error (.databaseOperation "Failed to store memory in relational database"),
        ⟨st.vindex ++ [⟨newId, content, tags, now, uid⟩], st.memories⟩) :=
  ⟨rfl, rfl⟩

/-- C3: if the synthesis-service call itself fails — the primary chain after
its own bounded retries, and the OpenAI backup when one is configured — the
consolidation run aborts with the worker state untouched: no message of the
attempted batch becomes processed and no profile or memory change is
visible, so the batch stays unprocessed for the next trigger. -/
theorem synthesis_failure_aborts_run_without_effects (st : WorkerState) (uid : UserId)
    (msgs : List MsgPayload) (meta summary : String) (so : SynthOutcome)
    (sim : VPoint → ℚ) (o : PersistOutcome) (nextId : MemId) (now : Nat) (e : Err)
    (hfail : getLLMProfileSynthesis so = .error e) :
    updateProfileBackground st uid msgs meta summary so sim o nextId now = (.error e, st) := by
  unfold updateProfileBackground
  rw [hfail]

/-- Concrete instantiation of the C3 theorem: the primary chain fails while
the module already fell back to OpenAI, so the call raises and the
single-message state is returned untouched. -/
theorem synthesis_failure_aborts_run_without_effects_witness :
    getLLMProfileSynthesis ⟨false, true, true, true, ⟨"s", "m"⟩⟩ =
      .error (.synthesis "Profile synthesis failed") ∧
    updateProfileBackground ⟨[], [], [⟨1, 0, "hi", 0, false⟩], []⟩ 0 [⟨1, "hi", 0⟩] "" ""
        ⟨false, true, true, true, ⟨"s", "m"⟩⟩ (fun _ => mkRat 1 2)
        ⟨true, ⟨fun _ => true, true, true⟩, true⟩ 5 9 =
      (.error (.synthesis "Profile synthesis failed"), ⟨[], [], [⟨1, 0, "hi", 0, false⟩], []⟩) :=
  ⟨rfl, synthesis_failure_aborts_run_without_effects _ 0 _ "" "" _ _ _ 5 9 _ rfl⟩

/-- C6: the success path of the consolidation worker is unreachable.
Whenever the synthesis call succeeds, the parsing block dereferences the
`user_profile_memories` field that `LLMAnalysisResult` does not declare, so
the task raises `UserContextError("LLM response format is invalid")` with
the worker state untouched: no message becomes processed and no extracted
memory row ever appears, contradicting the claimed success behaviour. -/
theorem successful_synthesis_still_aborts (st : WorkerState) (uid : UserId)
    (msgs : List MsgPayload) (meta summary : String) (so : SynthOutcome)
    (sim : VPoint → ℚ) (o : PersistOutcome) (nextId : MemId) (now : Nat)
    (r : LLMAnalysisResult) (hok : getLLMProfileSynthesis so = .ok r) :
    updateProfileBackground st uid msgs meta summary so sim o nextId now =
      (.error (.userContext "LLM response format is invalid"), st) := by
  unfold updateProfileBackground
  rw [hok]
  rfl

/-- Concrete instantiation of the C6 theorem: 5 unprocessed messages and a
successful synthesis response still end in the parse error, with all 5
messages left unprocessed and the memory table unchanged. -/
theorem successful_synthesis_still_aborts_witness :
    getLLMProfileSynthesis ⟨true, false, true, true, ⟨"sum", "\x7b\x7d"⟩⟩ =
      .ok ⟨"sum", "\x7b\x7d"⟩ ∧
    updateProfileBackground
        ⟨[], [],
         [⟨1, 0, "a", 0, false⟩, ⟨2, 0, "b", 1, false⟩, ⟨3, 0, "c", 2, false⟩,
          ⟨4, 0, "d", 3, false⟩, ⟨5, 0, "e", 4, false⟩], []⟩
        0 [⟨1, "a", 0⟩, ⟨2, "b", 1⟩, ⟨3, "c", 2⟩, ⟨4, "d", 3⟩, ⟨5, "e", 4⟩] "" ""
        ⟨true, false, true, true, ⟨"sum", "\x7b\x7d"⟩⟩ (fun _ => mkRat 1 2)
        ⟨true, ⟨fun _ => true, true, true⟩, true⟩ 10 99 =
      (.error (.userContext "LLM response format is invalid"),
        ⟨[], [],
         [⟨1, 0, "a", 0, false⟩, ⟨2, 0, "b", 1, false⟩, ⟨3, 0, "c", 2, false⟩,
          ⟨4, 0, "d", 3, false⟩, ⟨5, 0, "e", 4, false⟩], []⟩) :=
  ⟨rfl, successful_synthesis_still_aborts _ 0 _ "" "" _ _ _ 10 99 _ rfl⟩

/-- C2: the duplicate check of the consolidation run is broken.  The call at
`tasks.py` line 104 targets a method `SyncVectorStore` does not define, so
every dedup lookup raises `AttributeError`; the blanket handler logs a
warning and stores the candidate anyway.  Concretely: with an existing
memory "I like tennis" (relational row and indexed point) and the identical
extracted candidate — similarity 1, far above the claimed threshold of 0.9 —
the candidate is not skipped: a second `Memory` row is inserted and the
memory count of the owner rises from 1 to 2. -/
theorem duplicate_candidate_stored_despite_match :
    storeMemoriesBatch
        ⟨[], [⟨1, "I like tennis", [], 5⟩], [], [⟨1, "I like tennis", [], 0, 5⟩]⟩ 5
        ["I like tennis"] (fun _ => mkRat 1 1) ⟨fun _ => true, true, true⟩ 2 9 =
      ([2],
        ⟨[], [⟨1, "I like tennis", [], 5⟩, ⟨2, "I like tennis", ["ai_extracted"], 5⟩], [],
         [⟨1, "I like tennis", [], 0, 5⟩, ⟨2, "I like tennis", ["ai_extracted"], 9, 5⟩]⟩) ∧
    searchSimilarMemories [⟨1, "I like tennis", [], 0, 5⟩] (fun _ => mkRat 1 1)
        "I like tennis" 5 =
      .error (.attrMissing "search_similar_memories") :=
  ⟨rfl, rfl⟩

/-- `_store_memories_batch` touches only the memories table and the vector
index: profiles and messages pass through unchanged. -/
theorem storeMemoriesBatch_preserves_profiles_messages (st : WorkerState) (uid : UserId)
    (mems : List String) (sim : VPoint → ℚ) (o : BatchOutcome) (nid : MemId) (now : Nat) :
    (storeMemoriesBatch st uid mems sim o nid now).2.profiles = st.profiles ∧
    (storeMemoriesBatch st uid mems sim o nid now).2.messages = st.messages := by
  unfold storeMemoriesBatch
  rcases hbl : batchLoop st.vindex sim uid o now mems nid with ⟨ids, rows, points⟩
  by_cases hm : mems.isEmpty <;>
    by_cases hc : o.commitOk <;>
      by_cases hp : points.isEmpty <;>
        by_cases hq : o.qdrantBatchOk <;>
          simp [hm, hc, hp, hq, hbl]

/-- When the single batch commit fails, `_store_memories_batch` rolls back
the pending rows and returns the empty id list with the state unchanged. -/
theorem storeMemoriesBatch_commit_failure_no_effects (st : WorkerState) (uid : UserId)
    (mems : List String) (sim : VPoint → ℚ) (o : BatchOutcome) (nid : MemId) (now : Nat)
    (h : o.commitOk = false) :
    storeMemoriesBatch st uid mems sim o nid now = ([], st) := by
  unfold storeMemoriesBatch
  rcases hbl : batchLoop st.vindex sim uid o now mems nid with ⟨ids, rows, points⟩
  by_cases hm : mems.isEmpty <;> simp [hm, h, hbl]

/-- C1 counterexample: a concrete PERSIST run in which the memory-batch
commit fails while the profile and flag commits succeed ends with both
fetched messages marked processed and zero extracted memories stored — a
message is marked processed without its extracted memories being durably
committed, refuting the single-transaction, all-or-nothing claim. -/
theorem persist_not_single_transaction_counterexample :
    updateProfilePersist
        ⟨[], [], [⟨1, 0, "a", 0, false⟩, ⟨2, 0, "b", 1, false⟩], []⟩ 0
        "new summary" "\x7b\x7d" ["I like tennis"] [1, 2] (fun _ => mkRat 1 1)
        ⟨true, ⟨fun _ => true, false, true⟩, true⟩ 10 99 =
      (.ok (),
        ⟨[⟨0, "\x7b\x7d", "new summary"⟩], [],
         [⟨1, 0, "a", 0, true⟩, ⟨2, 0, "b", 1, true⟩], []⟩) := by
  rfl

/-- C1 (amended): the PERSIST phase runs three separate relational
transactions, in order: the `UserProfile` upsert, the insertion of the
surviving memories, and the setting of `is_processed=true` on the fetched
message ids.  A profile-commit failure aborts the run with no visible
effects, and messages are marked processed only after the profile upsert has
committed; but the three effects are not atomic: a failed memory commit is
swallowed and the fetched messages are still marked processed, while the
already-committed profile survives any later failure. -/
theorem persist_three_separate_commits (st : WorkerState) (uid : UserId)
    (s mj : String) (mems : List String) (ids : List MsgId) (sim : VPoint → ℚ)
    (o : PersistOutcome) (nid : MemId) (now : Nat) :
    (o.profileCommitOk = false →
      updateProfilePersist st uid s mj mems ids sim o nid now =
        (.error (.userContext "Failed to save user profile to database"), st)) ∧
    (o.profileCommitOk = true →
      (updateProfilePersist st uid s mj mems ids sim o nid now).2.profiles =
        upsertProfile st.profiles uid s mj) ∧
    (o.profileCommitOk = true → o.markCommitOk = true → o.batch.commitOk = false →
      (updateProfilePersist st uid s mj mems ids sim o nid now).2.messages =
        (if ids.isEmpty then st.messages else markProcessed st.messages ids) ∧
      (updateProfilePersist st uid s mj mems ids sim o nid now).2.memories = st.memories) := by
  refine ⟨?_, ?_, ?_⟩
  · intro h
    unfold updateProfilePersist
    simp [h]
  · intro h
    unfold updateProfilePersist
    simp only [h, Bool.not_true, Bool.false_eq_true, if_false]
    by_cases hm : mems.isEmpty <;>
      by_cases hi : ids.isEmpty <;>
        by_cases hmk : o.markCommitOk <;>
          simp [hm, hi, hmk, upsertProfile,
            (storeMemoriesBatch_preserves_profiles_messages _ uid mems sim o.batch nid now).1]
  · intro h hmk hbc
    unfold updateProfilePersist
    simp only [h, Bool.not_true, Bool.false_eq_true, if_false]
    have hbatch := storeMemoriesBatch_commit_failure_no_effects
      { st with profiles := upsertProfile st.profiles uid s mj } uid mems sim o.batch nid now hbc
    by_cases hm : mems.isEmpty <;>
      by_cases hi : ids.isEmpty <;>
        simp [hm, hi, hmk, hbatch]

/-- Concrete instantiation of the C1 amended theorem at two persist
outcomes: a failed profile commit aborts with no effects, and with the
memory commit failing the profile is still upserted while no memory row
appears. -/
theorem persist_three_separate_commits_witness :
    updateProfilePersist ⟨[], [], [⟨1, 0, "a", 0, false⟩], []⟩ 0 "s" "m" ["f"] [1]
        (fun _ => mkRat 1 1) ⟨false, ⟨fun _ => true, true, true⟩, true⟩ 4 7 =
      (.error (.userContext "Failed to save user profile to database"),
        ⟨[], [], [⟨1, 0, "a", 0, false⟩], []⟩) ∧
    (updateProfilePersist ⟨[], [], [⟨1, 0, "a", 0, false⟩], []⟩ 0 "s" "m" ["f"] [1]
        (fun _ => mkRat 1 1) ⟨true, ⟨fun _ => true, false, true⟩, true⟩ 4 7).2.profiles =
      upsertProfile [] 0 "s" "m" ∧
    (updateProfilePersist ⟨[], [], [⟨1, 0, "a", 0, false⟩], []⟩ 0 "s" "m" ["f"] [1]
        (fun _ => mkRat 1 1) ⟨true, ⟨fun _ => true, false, true⟩, true⟩ 4 7).2.memories = [] :=
  ⟨(persist_three_separate_commits ⟨[], [], [⟨1, 0, "a", 0, false⟩], []⟩ 0 "s" "m" ["f"] [1]
      (fun _ => mkRat 1 1) ⟨false, ⟨fun _ => true, true, true⟩, true⟩ 4 7).1 rfl,
   (persist_three_separate_commits ⟨[], [], [⟨1, 0, "a", 0, false⟩], []⟩ 0 "s" "m" ["f"] [1]
      (fun _ => mkRat 1 1) ⟨true, ⟨fun _ => true, false, true⟩, true⟩ 4 7).2.1 rfl,
   ((persist_three_separate_commits ⟨[], [], [⟨1, 0, "a", 0, false⟩], []⟩ 0 "s" "m" ["f"] [1]
      (fun _ => mkRat 1 1) ⟨true, ⟨fun _ => true, false, true⟩, true⟩ 4 7).2.2 rfl rfl rfl).2⟩

/-- After removing every row with a given id, the direct lookup of that id
returns nothing. -/
theorem getMemoryById_after_remove (memories : List Memory) (mid : MemId) :
    getMemoryById (memories.filter (fun r => !(r.id == mid))) mid = none := by
  unfold getMemoryById
  have hnil : (memories.filter (fun r => !(r.id == mid))).filter (fun m => m.id == mid) = [] := by
    apply List.eq_nil_iff_forall_not_mem.mpr
    intro a ha
    rcases List.mem_filter.mp ha with ⟨ha1, ha2⟩
    rcases List.mem_filter.mp ha1 with ⟨_, ha3⟩
    rw [ha2] at ha3
    exact absurd ha3 (by decide)
  rw [hnil]
  rfl

/-- C9: memory deletion is ownership-checked.  With the memory present, a
caller who is not the owner gets the ownership `DatabaseOperationError` and
both stores are untouched; the true owner succeeds, after which the id is
absent from the direct relational lookup and from every subsequent
related-memory search of that owner, for any query scorer, configuration and
returned hit.  (The vector-side removal is modelled from the spec, see
`MemoryManager.deleteMemory`.) -/
theorem delete_memory_owner_checked (st : DualState) (mid : MemId) (caller : UserId)
    (m : Memory) (hfound : getMemoryById st.memories mid = some m) :
    (m.userId ≠ caller →
      MemoryManager.deleteMemory st mid caller true =
        (.error (.databaseOperation "User can only delete their own memories"), st)) ∧
    (m.userId = caller →
      (MemoryManager.deleteMemory st mid caller true).1 =
        .ok ("Memory deleted: " ++ toString mid) ∧
      getMemoryById (MemoryManager.deleteMemory st mid caller true).2.memories mid = none ∧
      (∀ (cfg : ThresholdConfig) (sim : VPoint → ℚ) (hits : List Hit) (h : Hit),
        searchRelated cfg (MemoryManager.deleteMemory st mid caller true).2.vindex sim
            (some caller) = .ok hits → h ∈ hits → h.id ≠ mid)) := by
  constructor
  · intro hne
    unfold MemoryManager.deleteMemory MemCP.deleteMemory
    rw [hfound]
    have hbeq : (m.userId == caller) = false := by
      cases hb : (m.userId == caller)
      · rfl
      · exact absurd (beq_iff_eq.mp hb) hne
    simp [hbeq]
  · intro heq
    have hdel : MemCP.deleteMemory st.memories mid caller true =
        .ok (st.memories.filter (fun r => !(r.id == mid))) := by
      unfold MemCP.deleteMemory
      rw [hfound]
      simp [heq]
    have hmain : MemoryManager.deleteMemory st mid caller true =
        (.ok ("Memory deleted: " ++ toString mid),
          ⟨st.vindex.filter (fun p => !(p.id == mid && p.userId == caller)),
           st.memories.filter (fun r => !(r.id == mid))⟩) := by
      unfold MemoryManager.deleteMemory
      rw [hdel]
    refine ⟨by rw [hmain], by rw [hmain]; exact getMemoryById_after_remove st.memories mid, ?_⟩
    intro cfg sim hits h hrun hmem hid
    rw [hmain] at hrun
    unfold searchRelated at hrun
    have hhits : hits = (clientSearch
        (st.vindex.filter (fun p => !(p.id == mid && p.userId == caller)))
        sim caller cfg.scoreThreshold 25).filter
          (fun h => !(decide (cfg.upperScoreThreshold < h.score))) := by
      cases hrun; rfl
    subst hhits
    have hraw := (List.mem_filter.mp hmem).1
    rcases mem_clientSearch_exists _ sim caller cfg.scoreThreshold 25 h hraw with
      ⟨q, hqmem, hquid, _, hqh⟩
    rcases List.mem_filter.mp hqmem with ⟨_, hqcond⟩
    have hqid : q.id = mid := by rw [hqh] at hid; exact hid
    rw [hqid, hquid] at hqcond
    simp at hqcond

/-- Concrete instantiation of the C9 theorem on a one-memory state: the
non-owner caller 6 is rejected with the state unchanged, and the owner 5
succeeds with the relational lookup of the id returning nothing. -/
theorem delete_memory_owner_checked_witness :
    MemoryManager.deleteMemory ⟨[⟨3, "c", [], 0, 5⟩], [⟨3, "c", [], 5⟩]⟩ 3 6 true =
      (.error (.databaseOperation "User can only delete their own memories"),
        ⟨[⟨3, "c", [], 0, 5⟩], [⟨3, "c", [], 5⟩]⟩) ∧
    (MemoryManager.deleteMemory ⟨[⟨3, "c", [], 0, 5⟩], [⟨3, "c", [], 5⟩]⟩ 3 5 true).1 =
      .ok ("Memory deleted: " ++ toString 3) ∧
    getMemoryById
      (MemoryManager.deleteMemory ⟨[⟨3, "c", [], 0, 5⟩], [⟨3, "c", [], 5⟩]⟩ 3 5 true).2.memories
      3 = none :=
  ⟨(delete_memory_owner_checked ⟨[⟨3, "c", [], 0, 5⟩], [⟨3, "c", [], 5⟩]⟩ 3 6
      ⟨3, "c", [], 5⟩ rfl).1 (by decide),
   ((delete_memory_owner_checked ⟨[⟨3, "c", [], 0, 5⟩], [⟨3, "c", [], 5⟩]⟩ 3 5
      ⟨3, "c", [], 5⟩ rfl).2 rfl).1,
   ((delete_memory_owner_checked ⟨[⟨3, "c", [], 0, 5⟩], [⟨3, "c", [], 5⟩]⟩ 3 5
      ⟨3, "c", [], 5⟩ rfl).2 rfl).2.1⟩

/-- With an existing non-empty profile, the trigger fires exactly through the
count branch. -/
theorem shouldTrigger_count_branch (msgs : List UserMessage) (uid : UserId)
    (p : ProcessedUserProfile) (meta summary : String) (bs : Nat)
    (hne : profileIsEmpty meta summary = false)
    (hk : bs ≤ (msgs.filter (fun m => m.userId == uid && !m.isProcessed)).length) :
    shouldTriggerProfileUpdate msgs uid (some p) meta summary bs =
      (true, unprocessedFor msgs uid) := by
  unfold shouldTriggerProfileUpdate
  simp [hne, hk]

/-- The fetched batch has exactly as many messages as the unprocessed-count
query reports (sorting permutes). -/
theorem unprocessedFor_length (msgs : List UserMessage) (uid : UserId) :
    (unprocessedFor msgs uid).length =
      (msgs.filter (fun m => m.userId == uid && !m.isProcessed)).length :=
  (List.perm_insertionSort createdAsc _).length_eq

/-- When the trigger fires through the count branch and the deterministic
task id is not yet pending or executed, the task is enqueued (appended to the
broker queue); nothing else changes besides the appended message. -/
theorem recordMessage_enqueues (st : SchedState) (uid : UserId) (msgId : MsgId)
    (content : String) (now : Nat) (p : ProcessedUserProfile) (n : Nat)
    (hp : (st.profiles.filter (fun q => q.userId == uid)).head? = some p)
    (hne : profileIsEmpty p.metadataJson p.summaryText = false)
    (hn : ((st.messages ++ ([⟨msgId, uid, content, now, false⟩] : List UserMessage)).filter
        (fun m => m.userId == uid && !m.isProcessed)).length = n)
    (hk : LLM_PROCESS_BATCH_SIZE ≤ n)
    (hnew : (st.queue.contains ⟨uid, n⟩ || st.executed.contains ⟨uid, n⟩) = false) :
    recordMessageAndGetProfile st uid msgId content now =
      { st with
        messages := st.messages ++ ([⟨msgId, uid, content, now, false⟩] : List UserMessage),
        queue := st.queue ++ [⟨uid, n⟩] } := by
  unfold recordMessageAndGetProfile
  simp only [hp]
  rw [shouldTrigger_count_branch _ _ p _ _ _ hne (by rw [hn]; exact hk)]
  simp only []
  rw [unprocessedFor_length, hn]
  unfold applyAsync
  simp at hnew
  simp [hnew]

/-- C7 counterexample: an owner with a non-empty profile and two accumulated
unprocessed messages receives a third and a fourth message in quick
succession, before the broker delivers the first task (the source even delays
delivery with `countdown=2`).  Both triggers fire, carry the distinct task
ids `(owner, 3)` and `(owner, 4)`, are both queued, and both execute — two
consolidation runs for the same owner, the second neither discarded nor
preventing concurrent activity. -/
theorem concurrent_triggers_counterexample :
    (recordMessageAndGetProfile (recordMessageAndGetProfile
        ⟨[⟨1, 0, "a", 0, false⟩, ⟨2, 0, "b", 1, false⟩], [⟨0, "x", "y"⟩], [], []⟩
        0 3 "c" 2) 0 4 "d" 3).queue = [⟨0, 3⟩, ⟨0, 4⟩] ∧
    (workerStep (workerStep (recordMessageAndGetProfile (recordMessageAndGetProfile
        ⟨[⟨1, 0, "a", 0, false⟩, ⟨2, 0, "b", 1, false⟩], [⟨0, "x", "y"⟩], [], []⟩
        0 3 "c" 2) 0 4 "d" 3))).executed.length = 2 := by
  decide

/-- C7 (amended): the scheduler has no per-owner lock; the only duplicate
suppression is the deterministic Celery task id `(owner, unprocessed count)`,
and even granting the broker exact-id deduplication, two triggers that
observe different unprocessed counts are both enqueued and both executed.
Generally: for any owner with an existing non-empty profile, an empty broker
state and enough accumulated unprocessed messages, two consecutive inbound
messages enqueue the two distinct task ids `(owner, k+1)` and `(owner, k+2)`
and two worker steps execute both runs. -/
theorem concurrent_triggers_both_execute (st : SchedState) (uid : UserId)
    (i1 i2 : MsgId) (c1 c2 : String) (t1 t2 : Nat) (p : ProcessedUserProfile) (k : Nat)
    (hq : st.queue = []) (he : st.executed = [])
    (hp : (st.profiles.filter (fun q => q.userId == uid)).head? = some p)
    (hne : profileIsEmpty p.metadataJson p.summaryText = false)
    (hkdef : (st.messages.filter (fun m => m.userId == uid && !m.isProcessed)).length = k)
    (hk : LLM_PROCESS_BATCH_SIZE ≤ k + 1) :
    (recordMessageAndGetProfile (recordMessageAndGetProfile st uid i1 c1 t1)
        uid i2 c2 t2).queue = [⟨uid, k + 1⟩, ⟨uid, k + 2⟩] ∧
    (workerStep (workerStep (recordMessageAndGetProfile
        (recordMessageAndGetProfile st uid i1 c1 t1) uid i2 c2 t2))).executed =
      [⟨uid, k + 1⟩, ⟨uid, k + 2⟩] := by
  have hcnt1 : ((st.messages ++ ([⟨i1, uid, c1, t1, false⟩] : List UserMessage)).filter
      (fun m => m.userId == uid && !m.isProcessed)).length = k + 1 := by
    rw [List.filter_append]
    simp [hkdef]
  have h1 : recordMessageAndGetProfile st uid i1 c1 t1 =
      { st with
        messages := st.messages ++ ([⟨i1, uid, c1, t1, false⟩] : List UserMessage),
        queue := st.queue ++ [⟨uid, k + 1⟩] } :=
    recordMessage_enqueues st uid i1 c1 t1 p (k + 1) hp hne hcnt1 hk
      (by rw [hq, he]; rfl)
  have hcnt2 : (((st.messages ++ ([⟨i1, uid, c1, t1, false⟩] : List UserMessage)) ++
      ([⟨i2, uid, c2, t2, false⟩] : List UserMessage)).filter
      (fun m => m.userId == uid && !m.isProcessed)).length = k + 2 := by
    rw [List.filter_append, List.filter_append]
    simp [hkdef]
  have h2 : recordMessageAndGetProfile (recordMessageAndGetProfile st uid i1 c1 t1)
      uid i2 c2 t2 =
      { st with
        messages := (st.messages ++ ([⟨i1, uid, c1, t1, false⟩] : List UserMessage)) ++
          ([⟨i2, uid, c2, t2, false⟩] : List UserMessage),
        queue := (st.queue ++ [⟨uid, k + 1⟩]) ++ [⟨uid, k + 2⟩] } := by
    rw [h1]
    exact recordMessage_enqueues _ uid i2 c2 t2 p (k + 2) hp hne hcnt2
      (le_trans hk (Nat.le_succ _))
      (by simp [hq, he])
  constructor
  · simp [h2, hq]
  · simp [h2, hq, he, workerStep]

/-- Concrete instantiation of the C7 amended theorem: owner 0 with profile
("x", "y") and two accumulated unprocessed messages; the third and fourth
messages enqueue the task ids (0, 3) and (0, 4), and two worker steps
execute both. -/
theorem concurrent_triggers_both_execute_witness :
    (recordMessageAndGetProfile (recordMessageAndGetProfile
        ⟨[⟨1, 0, "p", 0, false⟩, ⟨2, 0, "q", 1, false⟩], [⟨0, "x", "y"⟩], [], []⟩
        0 7 "r" 2) 0 8 "s" 3).queue = [⟨0, 3⟩, ⟨0, 4⟩] ∧
    (workerStep (workerStep (recordMessageAndGetProfile (recordMessageAndGetProfile
        ⟨[⟨1, 0, "p", 0, false⟩, ⟨2, 0, "q", 1, false⟩], [⟨0, "x", "y"⟩], [], []⟩
        0 7 "r" 2) 0 8 "s" 3))).executed = [⟨0, 3⟩, ⟨0, 4⟩] :=
  concurrent_triggers_both_execute
    ⟨[⟨1, 0, "p", 0, false⟩, ⟨2, 0, "q", 1, false⟩], [⟨0, "x", "y"⟩], [], []⟩
    0 7 8 "r" "s" 2 3 ⟨0, "x", "y"⟩ 2 rfl rfl rfl (by decide) (by decide) (by decide)

end MemCP
